import Mathlib

/-!
Shallow embedding of the sensor acquisition, conversion and publication loop
of src/src/app_task.cpp and src/src/main.cpp (nRF52840 Matter SHT31 firmware).

Modelling conventions:
* C float values are modelled as exact rationals; the sub-ulp float32
  rounding error is not modelled.
* The Zephyr device handle is modelled as an Option of a device record that
  carries the readiness flag, the outcome of sensor_sample_fetch, and the two
  channel values (val1 integral part, val2 micro-unit part), matching the
  device-acquisition collaborator of the design.
* The Matter attribute store is modelled as a function from attribute kind
  and written integer value to a returned status; the publish step also
  returns the ordered list of write attempts it performed.
* Preprocessor backend selection is modelled as a record of the two
  configuration flags, and the preprocessor #error check as a predicate.
-/

namespace NrfSht31

/-- Truncation toward zero: the semantics of the C static_cast from a
floating value to an integer type, for in-range values. -/
def ratTruncToZero (q : ℚ) : ℤ := if 0 ≤ q then ⌊q⌋ else ⌈q⌉

/-- Rounding to the nearest integer with ties resolved away from zero, as
the spec wording requires of the UnitConverter. -/
def roundAwayFromZero (q : ℚ) : ℤ := if 0 ≤ q then ⌊q + 1/2⌋ else ⌈q - 1/2⌉

/-- Saturation to the int16 range, as the spec wording requires. -/
def clampToInt16 (n : ℤ) : ℤ := max (-32768) (min 32767 n)

/-- Saturation to the uint16 range, as the spec wording requires. -/
def clampToUint16 (n : ℤ) : ℤ := max 0 (min 65535 n)

/-- Unit conversion as the code performs it (app_task.cpp lines 136 and 138,
main.cpp lines 34 and 35): static_cast of value * 100, i.e. truncation
toward zero, with no saturation step. -/
def codeConvert (temperatureC humidityRH : ℚ) : ℤ × ℤ :=
  (ratTruncToZero (temperatureC * 100), ratTruncToZero (humidityRH * 100))

/-- Follows the spec wording (section 4.4): the UnitConverter as the spec
states it, round to nearest with ties away from zero, then saturation to the
target integer range.  Second definition kept for refinement comparison with
codeConvert. -/
def specConvert (temperatureC humidityRH : ℚ) : ℤ × ℤ :=
  (clampToInt16 (roundAwayFromZero (temperatureC * 100)),
   clampToUint16 (roundAwayFromZero (humidityRH * 100)))

/-- ReadTemperatureSensorVirtual, app_task.cpp lines 59 to 69: add 0.1 and
reset to 20.0 once the value exceeds 30.0. -/
def ReadTemperatureSensorVirtual (t : ℚ) : ℚ :=
  let t1 := t + 1/10
  if 30 < t1 then 20 else t1

/-- ReadHumiditySensorVirtual, app_task.cpp lines 72 to 82: add 0.1 and
reset to 40.0 once the value exceeds 60.0. -/
def ReadHumiditySensorVirtual (h : ℚ) : ℚ :=
  let h1 := h + 1/10
  if 60 < h1 then 40 else h1

/-- GetVirtualSensorData, app_task.cpp lines 85 to 89. -/
def GetVirtualSensorData (t h : ℚ) : ℚ × ℚ :=
  (ReadTemperatureSensorVirtual t, ReadHumiditySensorVirtual h)

/-- One Zephyr sensor_value: integral part val1 and micro-unit part val2. -/
structure SensorValue where
  val1 : ℤ
  val2 : ℤ

/-- State of the SHT31 peripheral as seen through the device-acquisition
collaborator: readiness, whether sensor_sample_fetch succeeds, and the two
channel readings returned by sensor_channel_get. -/
structure SHT31Device where
  ready : Bool
  fetchOk : Bool
  temp : SensorValue
  hum : SensorValue

/-- GetRealSensorData, app_task.cpp lines 93 to 115.  With a null device
handle the fallback pair (20, 40) is written and the function returns.
Otherwise a fetch is attempted; on fetch failure only a log is emitted and
the pointed-to values stay unchanged; on success the two channels are
combined as val1 + val2 / 1000000.  Note the readiness flag is never
consulted here: the code checks only handle nullness. -/
def GetRealSensorData (dev : Option SHT31Device) (t h : ℚ) : ℚ × ℚ :=
  match dev with
  | none => (20, 40)
  | some d =>
    if d.fetchOk then
      ((d.temp.val1 : ℚ) + (d.temp.val2 : ℚ) / 1000000,
       (d.hum.val1 : ℚ) + (d.hum.val2 : ℚ) / 1000000)
    else (t, h)

/-- Build-time backend selection flags, app_task.cpp lines 29 and 30. -/
structure SensorConfig where
  useVirtual : Bool
  useReal : Bool

/-- configBuildError: the preprocessor check at app_task.cpp lines 31 to 33
raises a build error exactly when both backends are selected; there is no
check for the neither-selected case. -/
def configBuildError (c : SensorConfig) : Bool := c.useVirtual && c.useReal

/-- GetSensorData, app_task.cpp lines 118 to 126: each configured backend
runs in order; with neither selected the values are untouched. -/
def GetSensorData (c : SensorConfig) (dev : Option SHT31Device) (t h : ℚ) :
    ℚ × ℚ :=
  let p1 := if c.useVirtual then GetVirtualSensorData t h else (t, h)
  if c.useReal then GetRealSensorData dev p1.1 p1.2 else p1

/-- The two Matter attributes the loop writes. -/
inductive AttrKind where
  | temperature
  | humidity
  deriving DecidableEq

/-- Status returned by the attribute-store set-operation; the code inspects
only equality with the success sentinel and otherwise logs the code. -/
inductive IMStatus where
  | success
  | error (code : ℕ)
  deriving DecidableEq

/-- UpdateTemperatureHumidity, app_task.cpp lines 129 to 158.  The store is
the external attribute-store collaborator.  The result carries the two set
statuses together with the ordered list of write attempts performed.  Both
writes are unconditional straight-line code: the humidity write is attempted
whatever the temperature status is; neither write is retried. -/
def UpdateTemperatureHumidity (store : AttrKind → ℤ → IMStatus) (t h : ℚ) :
    (IMStatus × IMStatus) × List (AttrKind × ℤ) :=
  let tempValue := ratTruncToZero (t * 100)
  let humValue := ratTruncToZero (h * 100)
  let statusTemp := store AttrKind.temperature tempValue
  let statusHum := store AttrKind.humidity humValue
  ((statusTemp, statusHum),
   [(AttrKind.temperature, tempValue), (AttrKind.humidity, humValue)])

/-- SENSOR_UPDATE_PERIOD_MS, app_task.cpp line 36. -/
def SENSOR_UPDATE_PERIOD_MS : ℕ := 10000

/-- Startup grace period of sensor_thread_func, app_task.cpp line 173:
k_sleep(K_SECONDS(5)), expressed in milliseconds. -/
def STARTUP_GRACE_MS : ℕ := 5000

/-- publishAttemptTimeMs T n: the instant, in milliseconds, of publish
attempt number n when sensor_thread_func starts at time T.  Derived from
the structure of app_task.cpp lines 161 to 180: sleep five seconds, then a
loop that samples, publishes and sleeps SENSOR_UPDATE_PERIOD_MS, with the
pipeline itself taking negligible time. -/
def publishAttemptTimeMs (T : ℕ) : ℕ → ℕ
  | 0 => T + STARTUP_GRACE_MS
  | n + 1 => publishAttemptTimeMs T n + SENSOR_UPDATE_PERIOD_MS

/-- sensorLoopState c dev n: the pair of values held by sensor_thread_func
after n executions of GetSensorData, starting from the initial values 25.0
and 50.0 declared at app_task.cpp lines 163 and 164. -/
def sensorLoopState (c : SensorConfig) (dev : Option SHT31Device) :
    ℕ → ℚ × ℚ
  | 0 => (25, 50)
  | n + 1 =>
    let p := sensorLoopState c dev n
    GetSensorData c dev p.1 p.2

/-- publishedSample c dev n: the sample handed to UpdateTemperatureHumidity
at tick n, produced by the GetSensorData call of iteration n. -/
def publishedSample (c : SensorConfig) (dev : Option SHT31Device) (n : ℕ) :
    ℚ × ℚ :=
  sensorLoopState c dev (n + 1)

/-- appTaskStartsSensorThread: AppTask::Init, app_task.cpp lines 234 to 240,
creates the sensor thread unconditionally; thread creation does not depend
on the backend configuration. -/
def appTaskStartsSensorThread (_c : SensorConfig) : Bool := true

/-! Helper lemmas about the numeric primitives. -/

lemma ratTruncToZero_intCast (a : ℤ) : ratTruncToZero (a : ℚ) = a := by
  unfold ratTruncToZero
  split_ifs <;> simp

lemma roundAwayFromZero_intCast (a : ℤ) : roundAwayFromZero (a : ℚ) = a := by
  unfold roundAwayFromZero
  split_ifs with hpos
  · rw [Int.floor_eq_iff]
    constructor <;> linarith
  · rw [Int.ceil_eq_iff]
    constructor <;> linarith

lemma ratTruncToZero_add_half (a : ℤ) (ha : 0 ≤ a) :
    ratTruncToZero ((a : ℚ) + 1 / 2) = a := by
  have haq : (0 : ℚ) ≤ (a : ℚ) := by exact_mod_cast ha
  unfold ratTruncToZero
  rw [if_pos (by linarith)]
  rw [Int.floor_eq_iff]
  constructor <;> linarith

lemma roundAwayFromZero_add_half (a : ℤ) (ha : 0 ≤ a) :
    roundAwayFromZero ((a : ℚ) + 1 / 2) = a + 1 := by
  have haq : (0 : ℚ) ≤ (a : ℚ) := by exact_mod_cast ha
  unfold roundAwayFromZero
  rw [if_pos (by linarith)]
  have harr : (a : ℚ) + 1 / 2 + 1 / 2 = ((a + 1 : ℤ) : ℚ) := by
    push_cast
    ring
  rw [harr, Int.floor_intCast]

lemma clampToInt16_of_mem (n : ℤ) (h1 : -32768 ≤ n) (h2 : n ≤ 32767) :
    clampToInt16 n = n := by
  unfold clampToInt16
  rw [min_eq_right h2, max_eq_right h1]

lemma clampToUint16_of_mem (n : ℤ) (h1 : 0 ≤ n) (h2 : n ≤ 65535) :
    clampToUint16 n = n := by
  unfold clampToUint16
  rw [min_eq_right h2, max_eq_right h1]

/-! Helper lemmas about the sensor loop. -/

lemma getSensorData_virtual (dev : Option SHT31Device) (t h : ℚ) :
    GetSensorData ⟨true, false⟩ dev t h = GetVirtualSensorData t h := rfl

lemma getSensorData_neither (dev : Option SHT31Device) (t h : ℚ) :
    GetSensorData ⟨false, false⟩ dev t h = (t, h) := rfl

lemma sensorLoopState_neither (dev : Option SHT31Device) (n : ℕ) :
    sensorLoopState ⟨false, false⟩ dev n = (25, 50) := by
  induction n with
  | zero => rfl
  | succ k ih =>
    show GetSensorData ⟨false, false⟩ dev (sensorLoopState ⟨false, false⟩ dev k).1
        (sensorLoopState ⟨false, false⟩ dev k).2 = (25, 50)
    rw [ih]
    rfl

lemma virtualStep_band (t h : ℚ) (ht1 : 20 ≤ t) (_ht2 : t ≤ 30)
    (hh1 : 40 ≤ h) (_hh2 : h ≤ 60) :
    20 ≤ (GetVirtualSensorData t h).1 ∧ (GetVirtualSensorData t h).1 ≤ 30 ∧
    40 ≤ (GetVirtualSensorData t h).2 ∧ (GetVirtualSensorData t h).2 ≤ 60 := by
  simp only [GetVirtualSensorData, ReadTemperatureSensorVirtual,
    ReadHumiditySensorVirtual]
  split_ifs with hwt hwh hwh <;>
    refine ⟨by linarith, by linarith, by linarith, by linarith⟩

lemma sensorLoopState_virtual_band (n : ℕ) :
    20 ≤ (sensorLoopState ⟨true, false⟩ none n).1 ∧
    (sensorLoopState ⟨true, false⟩ none n).1 ≤ 30 ∧
    40 ≤ (sensorLoopState ⟨true, false⟩ none n).2 ∧
    (sensorLoopState ⟨true, false⟩ none n).2 ≤ 60 := by
  induction n with
  | zero =>
    refine ⟨by norm_num [sensorLoopState], by norm_num [sensorLoopState],
      by norm_num [sensorLoopState], by norm_num [sensorLoopState]⟩
  | succ k ih =>
    obtain ⟨ih1, ih2, ih3, ih4⟩ := ih
    show 20 ≤ (GetSensorData ⟨true, false⟩ none (sensorLoopState ⟨true, false⟩ none k).1
        (sensorLoopState ⟨true, false⟩ none k).2).1 ∧ _
    rw [getSensorData_virtual]
    exact virtualStep_band _ _ ih1 ih2 ih3 ih4

lemma sensorLoopState_virtual_closed (n : ℕ) (hn : n ≤ 50) :
    sensorLoopState ⟨true, false⟩ none n =
      (25 + (n : ℚ) / 10, 50 + (n : ℚ) / 10) := by
  induction n with
  | zero => norm_num [sensorLoopState]
  | succ k ih =>
    have hk : k ≤ 50 := by omega
    have hkq : (k : ℚ) ≤ 49 := by
      have : k ≤ 49 := by omega
      exact_mod_cast this
    show GetSensorData ⟨true, false⟩ none (sensorLoopState ⟨true, false⟩ none k).1
        (sensorLoopState ⟨true, false⟩ none k).2 = _
    rw [ih hk, getSensorData_virtual]
    simp only [GetVirtualSensorData, ReadTemperatureSensorVirtual,
      ReadHumiditySensorVirtual]
    rw [if_neg (by linarith), if_neg (by linarith)]
    refine Prod.ext ?_ ?_ <;> push_cast <;> ring

lemma sensorLoopState_virtual_50 :
    (sensorLoopState ⟨true, false⟩ none 50).1 = 30 := by
  rw [sensorLoopState_virtual_closed 50 le_rfl]
  norm_num

lemma sensorLoopState_virtual_51 :
    (sensorLoopState ⟨true, false⟩ none 51).1 = 20 := by
  show (GetSensorData ⟨true, false⟩ none (sensorLoopState ⟨true, false⟩ none 50).1
      (sensorLoopState ⟨true, false⟩ none 50).2).1 = 20
  rw [sensorLoopState_virtual_closed 50 le_rfl, getSensorData_virtual]
  simp only [GetVirtualSensorData, ReadTemperatureSensorVirtual]
  rw [if_pos (by norm_num)]

lemma publishAttemptTimeMs_closed (T k : ℕ) :
    publishAttemptTimeMs T k = T + 5000 + 10000 * k := by
  induction k with
  | zero => rfl
  | succ n ih =>
    show publishAttemptTimeMs T n + SENSOR_UPDATE_PERIOD_MS = _
    rw [ih]
    simp [SENSOR_UPDATE_PERIOD_MS]
    ring

/-! Claim theorems. -/

/-- C1, counterexample.  The claim states that the published values are
clampToInt16(round(t * 100)) and clampToUint16(round(h * 100)) with rounding
to nearest, ties away from zero.  At the sample (25.555, 48.755) the code
conversion (truncating static_cast) yields (2555, 4875) while the claimed
conversion yields (2556, 4876), so the claim is false as stated. -/
theorem C1_counterexample :
    codeConvert 25.555 48.755 = (2555, 4875) ∧
    specConvert 25.555 48.755 = (2556, 4876) ∧
    codeConvert 25.555 48.755 ≠ specConvert 25.555 48.755 := by
  have ht : (25.555 * 100 : ℚ) = ((2555 : ℤ) : ℚ) + 1 / 2 := by norm_num
  have hh : (48.755 * 100 : ℚ) = ((4875 : ℤ) : ℚ) + 1 / 2 := by norm_num
  have hcode : codeConvert 25.555 48.755 = (2555, 4875) := by
    unfold codeConvert
    rw [ht, hh, ratTruncToZero_add_half 2555 (by norm_num),
      ratTruncToZero_add_half 4875 (by norm_num)]
  have hspec : specConvert 25.555 48.755 = (2556, 4876) := by
    unfold specConvert
    rw [ht, hh, roundAwayFromZero_add_half 2555 (by norm_num),
      roundAwayFromZero_add_half 4875 (by norm_num),
      show (2555 + 1 : ℤ) = 2556 from by norm_num,
      show (4875 + 1 : ℤ) = 4876 from by norm_num,
      clampToInt16_of_mem 2556 (by norm_num) (by norm_num),
      clampToUint16_of_mem 4876 (by norm_num) (by norm_num)]
  refine ⟨hcode, hspec, ?_⟩
  rw [hcode, hspec]
  intro hcontra
  have : (2555 : ℤ) = 2556 := congrArg Prod.fst hcontra
  omega

/-- C1, amended: the unit conversion performed before publishing is
truncation toward zero of value * 100 with no saturation step; it agrees
with the claimed clamp-of-round-to-nearest exactly when t * 100 and h * 100
are integers lying inside the int16 and uint16 ranges respectively, which
holds in particular for every sample within the spec invariant whose values
are exact multiples of 0.01. -/
theorem C1_amended_conversion (t h : ℚ) (a b : ℤ)
    (hta : t * 100 = (a : ℚ)) (hhb : h * 100 = (b : ℚ))
    (ha1 : -32768 ≤ a) (ha2 : a ≤ 32767) (hb1 : 0 ≤ b) (hb2 : b ≤ 65535) :
    codeConvert t h = specConvert t h := by
  unfold codeConvert specConvert
  rw [hta, hhb, ratTruncToZero_intCast, ratTruncToZero_intCast,
    roundAwayFromZero_intCast, roundAwayFromZero_intCast,
    clampToInt16_of_mem a ha1 ha2, clampToUint16_of_mem b hb1 hb2]

/-- C1, witness for the amended theorem at the sample (25.34, 48.75). -/
theorem C1_amended_conversion_witness :
    codeConvert 25.34 48.75 = specConvert 25.34 48.75 :=
  C1_amended_conversion 25.34 48.75 2534 4875 (by norm_num) (by norm_num)
    (by norm_num) (by norm_num) (by norm_num) (by norm_num)

/-- C2, counterexample.  The claim states that when the device handle is
present but the fetch fails, the sample used for that tick is exactly
(20, 40).  In the code the fetch-failure branch only logs: the pointed-to
values stay at their previous contents, here (25, 50), not (20, 40). -/
theorem C2_counterexample :
    GetRealSensorData (some ⟨true, false, ⟨0, 0⟩, ⟨0, 0⟩⟩) 25 50 = (25, 50) ∧
    GetRealSensorData (some ⟨true, false, ⟨0, 0⟩, ⟨0, 0⟩⟩) 25 50 ≠ (20, 40) := by
  refine ⟨rfl, ?_⟩
  have heval : GetRealSensorData (some ⟨true, false, ⟨0, 0⟩, ⟨0, 0⟩⟩) 25 50
      = ((25 : ℚ), (50 : ℚ)) := rfl
  rw [heval]
  intro hcontra
  have : (25 : ℚ) = 20 := congrArg Prod.fst hcontra
  norm_num at this

/-- C2, amended: in the hardware path, when the device handle is present but
the sample fetch fails, the pointed-to values are left unchanged, so the
tick reuses the previous sample; the (20, 40) fallback is applied only when
the device handle is absent. -/
theorem C2_amended_fetch_failure (d : SHT31Device) (t h : ℚ)
    (hf : d.fetchOk = false) :
    GetRealSensorData (some d) t h = (t, h) := by
  simp [GetRealSensorData, hf]

/-- C2, witness for the amended theorem. -/
theorem C2_amended_fetch_failure_witness :
    GetRealSensorData (some ⟨true, false, ⟨21, 500000⟩, ⟨41, 0⟩⟩) 25 50
      = (25, 50) :=
  C2_amended_fetch_failure ⟨true, false, ⟨21, 500000⟩, ⟨41, 0⟩⟩ 25 50 rfl

/-- C3: every sample produced by the simulated source from the initial
state (25, 50) satisfies 20 ≤ temperatureC ≤ 30 and 40 ≤ humidityRH ≤ 60,
for any number of consecutive calls. -/
theorem C3_simulated_invariant (n : ℕ) :
    20 ≤ (publishedSample ⟨true, false⟩ none n).1 ∧
    (publishedSample ⟨true, false⟩ none n).1 ≤ 30 ∧
    40 ≤ (publishedSample ⟨true, false⟩ none n).2 ∧
    (publishedSample ⟨true, false⟩ none n).2 ≤ 60 :=
  sensorLoopState_virtual_band (n + 1)

/-- C4, counterexample.  The claim states that selecting neither backend is
a configuration error detected at build/startup time that prevents the
scheduler from starting.  In the code the preprocessor check rejects only
the both-selected case: with neither backend selected no build error is
raised, the sensor thread is still created, and GetSensorData becomes a
no-op that leaves the values unchanged. -/
theorem C4_counterexample :
    configBuildError ⟨false, false⟩ = false ∧
    appTaskStartsSensorThread ⟨false, false⟩ = true ∧
    GetSensorData ⟨false, false⟩ none 25 50 = (25, 50) :=
  ⟨rfl, rfl, rfl⟩

/-- C4, amended: selecting both backends is a configuration error detected
at build time; selecting neither backend is not detected at all — it
compiles, the sensor thread starts, and each tick runs GetSensorData as the
identity on the carried values. -/
theorem C4_amended_configuration :
    configBuildError ⟨true, true⟩ = true ∧
    configBuildError ⟨true, false⟩ = false ∧
    configBuildError ⟨false, true⟩ = false ∧
    configBuildError ⟨false, false⟩ = false ∧
    ∀ (c : SensorConfig) (dev : Option SHT31Device) (t h : ℚ),
      appTaskStartsSensorThread c = true ∧
      GetSensorData ⟨false, false⟩ dev t h = (t, h) :=
  ⟨rfl, rfl, rfl, rfl, fun _ _ _ _ => ⟨rfl, rfl⟩⟩

/-- C5: in every publish cycle both attribute writes are attempted exactly
once each, in order, whatever statuses the store returns; the humidity
write and its reported status are the store response at the humidity
attribute, unaffected by the temperature status, and no retry occurs. -/
theorem C5_publisher_isolation (store : AttrKind → ℤ → IMStatus) (t h : ℚ) :
    (UpdateTemperatureHumidity store t h).2 =
      [(AttrKind.temperature, ratTruncToZero (t * 100)),
       (AttrKind.humidity, ratTruncToZero (h * 100))] ∧
    (UpdateTemperatureHumidity store t h).1.1 =
      store AttrKind.temperature (ratTruncToZero (t * 100)) ∧
    (UpdateTemperatureHumidity store t h).1.2 =
      store AttrKind.humidity (ratTruncToZero (h * 100)) :=
  ⟨rfl, rfl, rfl⟩

/-- C6, counterexample.  The claim states that an absent or not-ready
device makes acquisition yield exactly (20, 40).  The code checks only
handle nullness, never readiness: with a present but not-ready device whose
fetch fails, the values stay at their previous contents (25, 50). -/
theorem C6_counterexample :
    GetRealSensorData (some ⟨false, false, ⟨0, 0⟩, ⟨0, 0⟩⟩) 25 50 = (25, 50) ∧
    GetRealSensorData (some ⟨false, false, ⟨0, 0⟩, ⟨0, 0⟩⟩) 25 50 ≠ (20, 40) := by
  refine ⟨rfl, ?_⟩
  have heval : GetRealSensorData (some ⟨false, false, ⟨0, 0⟩, ⟨0, 0⟩⟩) 25 50
      = ((25 : ℚ), (50 : ℚ)) := rfl
  rw [heval]
  intro hcontra
  have : (25 : ℚ) = 20 := congrArg Prod.fst hcontra
  norm_num at this

/-- C6, amended: when the device handle is absent, acquisition immediately
yields exactly the fallback sample (20, 40), for any previous values, and
the loop continues; readiness is not consulted at acquisition time, so a
present but not-ready device instead goes through the fetch path. -/
theorem C6_amended_fallback (t h : ℚ) :
    GetRealSensorData none t h = (20, 40) := rfl

/-- C7: with the thread started at time T, publish attempt 0 happens no
earlier than T plus the 5000 ms grace period, attempt k happens exactly at
T + 5000 + 10000 k milliseconds (T + 5 + 10 k in the one-second time-units
of the claim), and attempts are strictly ordered; the schedule is total in
k, reflecting the non-terminating loop. -/
theorem C7_schedule (T k : ℕ) :
    publishAttemptTimeMs T k = T + 5000 + 10000 * k ∧
    T + STARTUP_GRACE_MS ≤ publishAttemptTimeMs T k ∧
    publishAttemptTimeMs T k < publishAttemptTimeMs T (k + 1) := by
  have h0 := publishAttemptTimeMs_closed T k
  have h1 := publishAttemptTimeMs_closed T (k + 1)
  refine ⟨h0, ?_, ?_⟩
  · rw [h0]
    show T + 5000 ≤ T + 5000 + 10000 * k
    omega
  · rw [h0, h1]
    omega

/-- C8, counterexample.  The claim states that, starting from 25.0 with
increment 0.1, after 51 calls the temperature returns to 20.0 plus the
remainder of the ramp (20.1 for the 0.1 overshoot past 30.0).  In the code
the wrap branch assigns the lower bound outright, so call 51 yields exactly
20.0, not 20.1. -/
theorem C8_counterexample :
    (sensorLoopState ⟨true, false⟩ none 51).1 = 20 ∧
    (sensorLoopState ⟨true, false⟩ none 51).1 ≠ 20 + 1 / 10 := by
  refine ⟨sensorLoopState_virtual_51, ?_⟩
  rw [sensorLoopState_virtual_51]
  norm_num

/-- C8, amended: with increment 0.1 and temperature starting at 25.0, call
50 returns exactly the boundary value 30.0 and call 51 wraps to exactly
20.0 — the reset discards the ramp remainder instead of adding it to the
lower bound. -/
theorem C8_amended_wrap :
    (sensorLoopState ⟨true, false⟩ none 50).1 = 30 ∧
    (sensorLoopState ⟨true, false⟩ none 51).1 = 20 :=
  ⟨sensorLoopState_virtual_50, sensorLoopState_virtual_51⟩

/-- C9: the code converter maps (25.34, 48.75) to (2534, 4875) and the
upper-boundary sample (30, 60) to (3000, 6000); at the boundary the
spec-worded converter agrees and its clamps are identities, so no overflow
or clamping is involved. -/
theorem C9_boundary_conversion :
    codeConvert 25.34 48.75 = (2534, 4875) ∧
    codeConvert 30 60 = (3000, 6000) ∧
    specConvert 30 60 = (3000, 6000) ∧
    clampToInt16 (roundAwayFromZero ((30 : ℚ) * 100)) =
      roundAwayFromZero ((30 : ℚ) * 100) ∧
    clampToUint16 (roundAwayFromZero ((60 : ℚ) * 100)) =
      roundAwayFromZero ((60 : ℚ) * 100) := by
  have h1 : (25.34 * 100 : ℚ) = ((2534 : ℤ) : ℚ) := by norm_num
  have h2 : (48.75 * 100 : ℚ) = ((4875 : ℤ) : ℚ) := by norm_num
  have h3 : ((30 : ℚ) * 100) = ((3000 : ℤ) : ℚ) := by norm_num
  have h4 : ((60 : ℚ) * 100) = ((6000 : ℤ) : ℚ) := by norm_num
  refine ⟨?_, ?_, ?_, ?_, ?_⟩
  · unfold codeConvert
    rw [h1, h2, ratTruncToZero_intCast, ratTruncToZero_intCast]
  · unfold codeConvert
    rw [h3, h4, ratTruncToZero_intCast, ratTruncToZero_intCast]
  · unfold specConvert
    rw [h3, h4, roundAwayFromZero_intCast, roundAwayFromZero_intCast,
      clampToInt16_of_mem 3000 (by norm_num) (by norm_num),
      clampToUint16_of_mem 6000 (by norm_num) (by norm_num)]
  · rw [h3, roundAwayFromZero_intCast]
    exact clampToInt16_of_mem 3000 (by norm_num) (by norm_num)
  · rw [h4, roundAwayFromZero_intCast]
    exact clampToUint16_of_mem 6000 (by norm_num) (by norm_num)

/-- C10: with neither backend configured, GetSensorData leaves the carried
values unchanged, so every tick of the scheduler loop publishes the sample
(25, 50) built from the initial values, forever; its wire conversion is
(2500, 5000). -/
theorem C10_neither_backend_frame (dev : Option SHT31Device) (t h : ℚ)
    (n : ℕ) :
    GetSensorData ⟨false, false⟩ dev t h = (t, h) ∧
    publishedSample ⟨false, false⟩ dev n = (25, 50) ∧
    codeConvert 25 50 = (2500, 5000) := by
  refine ⟨rfl, sensorLoopState_neither dev (n + 1), ?_⟩
  have h1 : ((25 : ℚ) * 100) = ((2500 : ℤ) : ℚ) := by norm_num
  have h2 : ((50 : ℚ) * 100) = ((5000 : ℤ) : ℚ) := by norm_num
  unfold codeConvert
  rw [h1, h2, ratTruncToZero_intCast, ratTruncToZero_intCast]

end NrfSht31
